import Mathlib

set_option maxRecDepth 8192

/-!
Verification of the Zapdos voice-console pipeline.

Shallow embedding of the client component `src/components/voice-console.tsx`
(the scenario tables, `processBusinessLogic`, `startRecording`,
`sendToWhisper`, and the TTS effect) and of the server transcription route
`src/unnamed/part_000` (which contains two versions of
`app/api/whisper/route.ts`: a first version whose MIME validation is
substring-based and which streams the upload directly, and a second version
that writes the upload to a temp file before the external call).

JavaScript strings are modelled as Lean `String`; `String.prototype.includes`
is modelled by an explicit substring scan; `toLowerCase` by mapping
`Char.toLower` (all trigger keys and scenario strings are ASCII);
React `setX` state updates are modelled as last-write-wins sequences;
the external delegation / transcription calls are modelled by an explicit
outcome parameter, and their side effects (call attempted, temp file
written/deleted) are recorded in explicit effect fields.
-/

namespace Zapdos

/-! ## String helpers: JS `includes` and `toLowerCase` -/

/-- `takesLead hay needle`: the list `hay` begins with `needle`
(character-by-character equality). -/
def takesLead : List Char → List Char → Bool
  | _, [] => true
  | [], _ :: _ => false
  | a :: as, b :: bs => a == b && takesLead as bs

/-- `hasSub hay needle`: `needle` occurs contiguously inside `hay`
(JS `hay.includes(needle)` on the underlying character lists). -/
def hasSub : List Char → List Char → Bool
  | [], needle => needle.isEmpty
  | a :: as, needle => takesLead (a :: as) needle || hasSub as needle

/-- JS `hay.includes(needle)` on strings. -/
def strIncludes (hay needle : String) : Bool :=
  hasSub hay.data needle.data

/-- JS `s.toLowerCase()`; all strings the component lower-cases are ASCII,
where `Char.toLower` agrees with JS. -/
def strToLower (s : String) : String :=
  ⟨s.data.map Char.toLower⟩

/-- JS `!text.trim()`: the string trims to empty, i.e. every character is
whitespace. -/
def isBlank (s : String) : Bool :=
  s.data.all Char.isWhitespace

/-! ## Scenario configuration (`scenarioResponses`, `aiExplanationData`) -/

/-- One record of `aiExplanationData` in `voice-console.tsx`. -/
structure Explanation where
  input : String
  agent : String
  ruleEngine : String
  confidence : Nat
  decision : String
  humanVerification : String
deriving DecidableEq

/-- The `scenarioResponses` table, in declaration order: each trigger key with
its ordered candidate replies. -/
def scenarioResponses : List (String × List String) :=
  [("power outage",
     ["Power outage reported in your area. Technician has been dispatched and will arrive within 24 hours. For immediate assistance, please contact the emergency helpline at 1912.",
      "We've registered your power outage report. Estimated restoration time is 6-8 hours."]),
   ("water tank",
     ["Water tank level critical. Refill scheduled for tomorrow morning between 6-8 AM. You'll receive an SMS confirmation shortly."])]

/-- The `aiExplanationData` table keyed by the same trigger strings. -/
def aiExplanationData : List (String × Explanation) :=
  [("power outage",
    { input := "Power outage in our area",
      agent := "Utility Management Agent",
      ruleEngine := "Emergency Response Protocol v2.1 - Priority 1",
      confidence := 95,
      decision := "Dispatch technician within 24 hours, send SMS confirmation",
      humanVerification := "Auto-verified by system." }),
   ("water tank",
    { input := "Water tank is almost empty",
      agent := "Water Resource Management Agent",
      ruleEngine := "Water Distribution Algorithm v3.0 - Critical Level",
      confidence := 92,
      decision := "Schedule emergency refill",
      humanVerification := "Auto-verified." })]

/-- `aiExplanationData[matchedScenario]`: lookup by trigger key. -/
def lookupExplanation (k : String) : Option Explanation :=
  (aiExplanationData.find? (fun kv => kv.1 == k)).map Prod.snd

/-! ## Intent resolver (`processBusinessLogic`) -/

/-- Outcome of the outbound `fetch("/api/mistral", ...)` plus JSON parse:
either both succeed, yielding `data.response` (`none` when the JSON has no
`response` field), or the whole delegation throws (transport error, timeout,
parse failure). -/
inductive DelegationOutcome where
  | success (response : Option String)
  | failure
deriving DecidableEq

/-- Result of the `matchedScenario` search:
`Object.keys(scenarioResponses).find(scenario => lowerText.includes(scenario))`
followed by indexing, modelled as `find?` over the table in declaration
order. -/
def matchedEntry (lowerText : String) : Option (String × List String) :=
  scenarioResponses.find? (fun kv => strIncludes lowerText kv.1)

/-- The string assigned by `setReply` in the delegation branch:
`data.response || "I processed that request."` on success (JS `||` treats the
empty string as falsy), or the catch-branch string on failure. -/
def delegatedWrite : DelegationOutcome → String
  | .success (some r) => if r.isEmpty then "I processed that request." else r
  | .success none => "I processed that request."
  | .failure => "I heard you, but my AI brain is currently offline."

/-- The unconditional final `setReply` at the end of `processBusinessLogic`. -/
def fallbackReply : String :=
  "I understand your query. Connecting you to an agent..."

/-- Observable outcome of one `processBusinessLogic(text)` run:
the ordered sequence of `setReply` writes, the `setCurrentExplanation` /
`setShowExplanation` updates, and whether the `/api/mistral` fetch was
attempted. -/
structure TurnOutcome where
  replyWrites : List String
  explanation : Option Explanation
  showExplanation : Bool
  aiContacted : Bool
deriving DecidableEq

/-- `processBusinessLogic` from `voice-console.tsx` lines 202-235:
early return on a whitespace-only transcript; otherwise lower-case, try the
scenario table (first match wins and returns immediately); otherwise delegate
to the AI endpoint — whose reply write is then unconditionally overwritten by
the final fallback write. -/
def processBusinessLogic (text : String) (d : DelegationOutcome) : TurnOutcome :=
  if isBlank text then
    { replyWrites := [], explanation := none, showExplanation := false, aiContacted := false }
  else
    let lowerText := strToLower text
    match matchedEntry lowerText with
    | some entry =>
        { replyWrites := [entry.2.headD ""],
          explanation := lookupExplanation entry.1,
          showExplanation := true,
          aiContacted := false }
    | none =>
        { replyWrites := [delegatedWrite d, fallbackReply],
          explanation := none,
          showExplanation := false,
          aiContacted := true }

/-- The reply the caller ends the turn with: React state is last-write-wins,
so it is the last `setReply` argument, or `none` when no write happened. -/
def finalReply (text : String) (d : DelegationOutcome) : Option String :=
  (processBusinessLogic text d).replyWrites.getLast?

/-! ## Transcription gateway, first route version (`part_000` lines 1-202) -/

/-- The `File` the route reads from the multipart form: name, MIME type
string, and byte size. -/
structure AudioFile where
  name : String
  mime : String
  size : Nat
deriving DecidableEq

/-- `validTypes` of the first route version. -/
def validTypes : List String :=
  ["audio/webm", "audio/wav", "audio/mp3", "audio/m4a", "audio/mpeg", "audio/ogg"]

/-- Characters after the first `/` of the list, or `[]` when there is
none. -/
def afterSlash : List Char → List Char
  | [] => []
  | c :: rest => if c == '/' then rest else afterSlash rest

/-- Characters up to (excluding) the next `/`. -/
def upToSlash : List Char → List Char
  | [] => []
  | c :: rest => if c == '/' then [] else c :: upToSlash rest

/-- JS `type.split('/')[1]`: the segment between the first and second
slash. -/
def subtypeOf (t : String) : String :=
  ⟨upToSlash (afterSlash t.data)⟩

/-- The first version's MIME check:
`validTypes.some(type => audioFile.type.includes(type.split('/')[1]))` —
substring containment of the subtype, not exact membership. -/
def typeAllowed (mime : String) : Bool :=
  validTypes.any (fun t => strIncludes mime (subtypeOf t))

/-- `25 * 1024 * 1024`, the Whisper size limit in bytes (25 MiB). -/
def maxSize : Nat := 25 * 1024 * 1024

/-- The distinct validation errors of the route (each returned as HTTP 400). -/
inductive UploadError where
  | missingAudio
  | unsupportedFormat
  | payloadTooLarge
deriving DecidableEq

/-- The validation prefix of `POST` (first version, lines 71-94): missing
file, then MIME check, then size check, in that order; `none` means
validation passed and control reaches the external Whisper call. -/
def validateUpload (audio : Option AudioFile) : Option UploadError :=
  match audio with
  | none => some .missingAudio
  | some f =>
      if !(typeAllowed f.mime) then some .unsupportedFormat
      else if f.size > maxSize then some .payloadTooLarge
      else none

/-- What the first-version `POST` does up to the external call: the HTTP
status of the early return on validation failure, and whether
`openai.audio.transcriptions.create` was reached. -/
structure GatewayOutcome where
  status : Nat
  errorKind : Option UploadError
  extAttempted : Bool
deriving DecidableEq

/-- First-version `POST`, projected onto validation and the external-call
attempt. -/
def gatewayPOST (audio : Option AudioFile) : GatewayOutcome :=
  match validateUpload audio with
  | some e => { status := 400, errorKind := some e, extAttempted := false }
  | none => { status := 200, errorKind := none, extAttempted := true }

/-! ## Script detection (`detectLanguagesInText`, first version, lines 47-61) -/

/-- `decide` of a closed code-point range test, the Lean form of the
single-character-class regex tests in `detectLanguagesInText`. -/
def inRange (lo hi : Nat) (c : Char) : Bool :=
  decide (lo ≤ c.toNat ∧ c.toNat ≤ hi)

/-- `/[\uLO-\uHI]/.test(text)`: some character of the text lies in the
range. -/
def hasCharInRange (text : String) (lo hi : Nat) : Bool :=
  text.data.any (inRange lo hi)

/-- `/[a-zA-Z]/.test(text)`. -/
def hasLatinLetter (text : String) : Bool :=
  text.data.any (fun c =>
    decide ((97 ≤ c.toNat ∧ c.toNat ≤ 122) ∨ (65 ≤ c.toNat ∧ c.toNat ≤ 90)))

/-- `detectLanguagesInText` (first version): one membership test per Unicode
block, collected in the order the `Set` insertions run, which is the order
`Array.from` reports. -/
def detectLanguagesInText (text : String) : List String :=
  (if hasCharInRange text 0x900 0x97F then ["Hindi"] else []) ++
  (if hasCharInRange text 0xB80 0xBFF then ["Tamil"] else []) ++
  (if hasCharInRange text 0xC00 0xC7F then ["Telugu"] else []) ++
  (if hasCharInRange text 0xD00 0xD7F then ["Malayalam"] else []) ++
  (if hasCharInRange text 0xC80 0xCFF then ["Kannada"] else []) ++
  (if hasCharInRange text 0x980 0x9FF then ["Bengali"] else []) ++
  (if hasCharInRange text 0xA80 0xAFF then ["Gujarati"] else []) ++
  (if hasCharInRange text 0xA00 0xA7F then ["Punjabi"] else []) ++
  (if hasLatinLetter text then ["English"] else [])

/-! ## Client upload (`sendToWhisper`, lines 168-199) -/

/-- One multipart form field as the client builds it: its name, whether it is
the binary blob (`formData.append('file', audioBlob, 'recording.webm')`) or a
plain text value, and the filename or text. -/
structure FormField where
  fieldName : String
  isBlob : Bool
  value : String
deriving DecidableEq

/-- The `FormData` `sendToWhisper` builds: the audio blob under the field
name `"file"`, and a `language` field only when the selected language is
truthy and not `"auto"`. -/
def sendToWhisperForm (selectedLanguage : String) : List FormField :=
  [{ fieldName := "file", isBlob := true, value := "recording.webm" }] ++
  (if !selectedLanguage.isEmpty && selectedLanguage != "auto" then
    [{ fieldName := "language", isBlob := false, value := selectedLanguage }]
  else [])

/-- Server-side `formData.get(name)`: first field with that name. -/
def formGet (form : List FormField) (n : String) : Option FormField :=
  form.find? (fun f => f.fieldName == n)

/-- The requests emitted by the `mediaRecorder.onstop` handler of one
completed capture session: it calls `sendToWhisper` exactly once. -/
def onstopRequests (selectedLanguage : String) : List (List FormField) :=
  [sendToWhisperForm selectedLanguage]

/-! ## Transcription gateway, second route version (`part_000` lines 202-382) -/

/-- `allowedTypes` of the second route version (exact membership). -/
def allowedTypesV2 : List String :=
  ["audio/webm", "audio/wav", "audio/mpeg", "audio/mp3", "audio/mp4",
   "audio/ogg", "audio/x-m4a"]

/-- Outcome of the external Whisper call in the second version: success, or a
throw carrying an HTTP status the catch block inspects. -/
inductive ExtOutcome where
  | ok
  | errStatus (code : Nat)
  | errOther
deriving DecidableEq

/-- Effect trace of the second-version `POST`: the response status, whether
the temp file was written, whether `fs.unlink` ran on it, and whether the
external call was attempted. -/
structure PostV2Effects where
  status : Nat
  tempWritten : Bool
  tempDeleted : Bool
  extAttempted : Bool
deriving DecidableEq

/-- Second-version `POST` (lines 273-357): after validation it writes the
upload to a temp file, calls Whisper, and calls `fs.unlink` only on the line
after a successful call; a throw transfers control to the catch block, which
returns without unlinking. -/
def gatewayPOSTv2 (audio : Option AudioFile) (ext : ExtOutcome) : PostV2Effects :=
  match audio with
  | none => { status := 400, tempWritten := false, tempDeleted := false, extAttempted := false }
  | some f =>
      if !(allowedTypesV2.contains f.mime) then
        { status := 400, tempWritten := false, tempDeleted := false, extAttempted := false }
      else if f.size > maxSize then
        { status := 400, tempWritten := false, tempDeleted := false, extAttempted := false }
      else
        match ext with
        | .ok => { status := 200, tempWritten := true, tempDeleted := true, extAttempted := true }
        | .errStatus c =>
            { status := if c == 429 then 429 else 500,
              tempWritten := true, tempDeleted := false, extAttempted := true }
        | .errOther =>
            { status := 500, tempWritten := true, tempDeleted := false, extAttempted := true }

/-! ## Session controller state (`VoiceConsole` state and `startRecording`) -/

/-- The component state and refs that `startRecording` touches, plus an
effect trace `acquiredStreams` recording every `getUserMedia` acquisition
(newest first) so resource acquisition is observable. -/
structure ConsoleState where
  transcript : String
  reply : String
  error : Option String
  showExplanation : Bool
  detectedLanguage : String
  isRecording : Bool
  streamRef : Option Nat
  recorderRef : Option Nat
  chunks : List Nat
  acquiredStreams : List Nat
deriving DecidableEq

/-- `startRecording` (lines 116-158), success path, handed the fresh stream
handle `getUserMedia` returns. The source has no guard on `isRecording`: it
unconditionally clears the turn state, acquires a new stream, replaces both
refs, resets the chunk buffer, and sets `isRecording`. -/
def startRecording (s : ConsoleState) (newStream : Nat) : ConsoleState :=
  { s with
    error := none, transcript := "", reply := "",
    showExplanation := false, detectedLanguage := "",
    streamRef := some newStream,
    recorderRef := some newStream,
    chunks := [],
    isRecording := true,
    acquiredStreams := newStream :: s.acquiredStreams }

/-- A concrete state in which a capture session is active: `isRecording`
holds, stream handle 1 is acquired and owned by the refs, and a chunk has
already been captured. -/
def activeRecordingState : ConsoleState :=
  { transcript := "previous words", reply := "", error := none,
    showExplanation := false, detectedLanguage := "",
    isRecording := true, streamRef := some 1, recorderRef := some 1,
    chunks := [17], acquiredStreams := [1] }

/-! ## Speech output (the TTS `useEffect` on `reply`, lines 82-113) -/

/-- `window.speechSynthesis.cancel()`: empties the utterance queue. -/
def synthCancel (_q : List String) : List String := []

/-- `window.speechSynthesis.speak(u)`: enqueues the utterance. -/
def synthSpeak (u : String) (q : List String) : List String := q ++ [u]

/-- The TTS effect body run when `reply` changes: early return when `reply`
is falsy, otherwise `cancel()` immediately followed by `speak(u)` on the
utterance built from the reply. `q` is the synthesis queue (the in-progress
utterance, if any, and anything pending). -/
def ttsEffect (reply : String) (q : List String) : List String :=
  if reply.isEmpty then q else synthSpeak reply (synthCancel q)

/-! ## Theorems -/

/-- Every entry found in the scenario table is one of its two declared
entries. -/
theorem matchedEntry_mem {lt : String} {entry : String × List String}
    (h : matchedEntry lt = some entry) : entry ∈ scenarioResponses :=
  List.mem_of_find?_eq_some h

/-- The first reply of any scenario entry is a fixed non-empty string
distinct from the fallback reply. -/
theorem scenario_first_reply_sound {entry : String × List String}
    (h : entry ∈ scenarioResponses) :
    entry.2.headD "" ≠ "" ∧ entry.2.headD "" ≠ fallbackReply := by
  simp only [scenarioResponses, List.mem_cons, List.mem_singleton] at h
  rcases h with h | h | h
  · subst h; exact ⟨by decide, by decide⟩
  · subst h; exact ⟨by decide, by decide⟩
  · cases h

/-- Claim C1 counterexample: on the empty transcript — a reachable input,
since the transcription service can return empty text for silence —
`processBusinessLogic` returns before any reply write, so the turn ends with
no reply at all, not with a non-empty reply as the claim states. -/
theorem resolver_empty_transcript_yields_no_reply :
    finalReply "" (.success (some "Power is back.")) = none ∧
    (processBusinessLogic "" (.success (some "Power is back."))).replyWrites = [] := by
  decide

/-- Claim C1 (amended): for every transcript with non-whitespace content and
every delegation outcome (timeout, malformed response, or success), intent
resolution yields some non-empty reply — a scenario reply, or (because of the
unconditional final write) the fixed fallback; only a whitespace-only
transcript ends the turn without a reply. -/
theorem resolver_total_on_nonblank (text : String) (d : DelegationOutcome)
    (hb : isBlank text = false) :
    ∃ r, finalReply text d = some r ∧ r ≠ "" := by
  cases hm : matchedEntry (strToLower text) with
  | some entry =>
      refine ⟨entry.2.headD "", ?_,
        (scenario_first_reply_sound (matchedEntry_mem hm)).1⟩
      simp [finalReply, processBusinessLogic, hb, hm]
  | none =>
      refine ⟨fallbackReply, ?_, by decide⟩
      simp [finalReply, processBusinessLogic, hb, hm]

/-- Witness for C1: the transcript "hello" is non-blank and resolves to a
non-empty reply even when delegation fails. -/
theorem resolver_total_on_nonblank_witness :
    isBlank "hello" = false ∧
    ∃ r, finalReply "hello" DelegationOutcome.failure = some r ∧ r ≠ "" :=
  ⟨by decide, resolver_total_on_nonblank "hello" DelegationOutcome.failure (by decide)⟩

/-- Claim C2 (code bug, evaluated at the failing input): on the transcript
"hello" no scenario trigger matches, delegation succeeds with the textual
response "Hi! How can I help?", and that response is written to the reply —
but the unconditional final write then replaces it, so the caller receives
the generic fallback instead of the delegated response. -/
theorem delegated_reply_overwritten_by_fallback :
    matchedEntry (strToLower "hello") = none ∧
    delegatedWrite (.success (some "Hi! How can I help?")) = "Hi! How can I help?" ∧
    (processBusinessLogic "hello" (.success (some "Hi! How can I help?"))).replyWrites =
      ["Hi! How can I help?", fallbackReply] ∧
    finalReply "hello" (.success (some "Hi! How can I help?")) = some fallbackReply ∧
    fallbackReply ≠ "Hi! How can I help?" := by
  decide

/-- Claim C5: scenario resolution lower-cases the transcript and tests the
triggers by substring containment in declared order — whenever "power outage"
occurs in the lowered text the first power-outage reply and record win
(declaration order, regardless of other triggers), and "water tank" wins
exactly when "power outage" does not occur; on the input "Our water tank is
almost empty" the resolver returns the configured water-tank reply verbatim
together with its explanation record, whose confidence is 92. -/
theorem scenario_resolution_order_and_roundtrip (text : String)
    (d : DelegationOutcome) (hb : isBlank text = false) :
    (strIncludes (strToLower text) "power outage" = true →
      processBusinessLogic text d =
        { replyWrites := ["Power outage reported in your area. Technician has been dispatched and will arrive within 24 hours. For immediate assistance, please contact the emergency helpline at 1912."],
          explanation := lookupExplanation "power outage",
          showExplanation := true, aiContacted := false }) ∧
    (strIncludes (strToLower text) "power outage" = false →
      strIncludes (strToLower text) "water tank" = true →
      processBusinessLogic text d =
        { replyWrites := ["Water tank level critical. Refill scheduled for tomorrow morning between 6-8 AM. You'll receive an SMS confirmation shortly."],
          explanation := lookupExplanation "water tank",
          showExplanation := true, aiContacted := false }) ∧
    processBusinessLogic "Our water tank is almost empty" d =
      { replyWrites := ["Water tank level critical. Refill scheduled for tomorrow morning between 6-8 AM. You'll receive an SMS confirmation shortly."],
        explanation := some
          { input := "Water tank is almost empty",
            agent := "Water Resource Management Agent",
            ruleEngine := "Water Distribution Algorithm v3.0 - Critical Level",
            confidence := 92,
            decision := "Schedule emergency refill",
            humanVerification := "Auto-verified." },
        showExplanation := true, aiContacted := false } ∧
    ((processBusinessLogic "Our water tank is almost empty" d).explanation.map
        Explanation.confidence) = some 92 := by
  refine ⟨?_, ?_, ?_, ?_⟩
  · intro h1
    unfold processBusinessLogic
    rw [if_neg (by simp [hb])]
    simp [matchedEntry, scenarioResponses, List.find?, h1, lookupExplanation]
  · intro h1 h2
    unfold processBusinessLogic
    rw [if_neg (by simp [hb])]
    simp [matchedEntry, scenarioResponses, List.find?, h1, h2, lookupExplanation]
  · cases d with
    | success r => cases r with
      | some s => rfl
      | none => rfl
    | failure => rfl
  · cases d with
    | success r => cases r with
      | some s => rfl
      | none => rfl
    | failure => rfl

/-- Witness for C5: applied at the round-trip input itself, which contains
"water tank" but not "power outage" after lower-casing. -/
theorem scenario_resolution_witness :
    isBlank "Our water tank is almost empty" = false ∧
    strIncludes (strToLower "Our water tank is almost empty") "power outage" = false ∧
    strIncludes (strToLower "Our water tank is almost empty") "water tank" = true ∧
    processBusinessLogic "Our water tank is almost empty" DelegationOutcome.failure =
      { replyWrites := ["Water tank level critical. Refill scheduled for tomorrow morning between 6-8 AM. You'll receive an SMS confirmation shortly."],
        explanation := lookupExplanation "water tank",
        showExplanation := true, aiContacted := false } :=
  ⟨by decide, by decide, by decide,
    (scenario_resolution_order_and_roundtrip "Our water tank is almost empty"
      DelegationOutcome.failure (by decide)).2.1 (by decide) (by decide)⟩

/-- Claim C10: when a scenario trigger matches, the resolver's outcome is
exactly the single scenario reply write with its explanation — no delegation
call is attempted, the fallback write never executes, and the outcome is
independent of the delegation outcome entirely. -/
theorem scenario_match_frame (text : String) (d d' : DelegationOutcome)
    (entry : String × List String)
    (hb : isBlank text = false)
    (hm : matchedEntry (strToLower text) = some entry) :
    (processBusinessLogic text d).aiContacted = false ∧
    (processBusinessLogic text d).replyWrites = [entry.2.headD ""] ∧
    fallbackReply ∉ (processBusinessLogic text d).replyWrites ∧
    processBusinessLogic text d = processBusinessLogic text d' := by
  have hrun : ∀ e : DelegationOutcome, processBusinessLogic text e =
      { replyWrites := [entry.2.headD ""],
        explanation := lookupExplanation entry.1,
        showExplanation := true, aiContacted := false } := by
    intro e
    simp [processBusinessLogic, hb, hm]
  refine ⟨by rw [hrun d], by rw [hrun d], ?_, by rw [hrun d, hrun d']⟩
  rw [hrun d]
  simp only [List.mem_singleton]
  exact fun h => (scenario_first_reply_sound (matchedEntry_mem hm)).2 h.symm

/-- Witness for C10: the matching transcript "power outage near my house"
resolves to the power-outage entry without contacting the AI endpoint. -/
theorem scenario_match_frame_witness :
    isBlank "There is a power outage near my house" = false ∧
    (processBusinessLogic "There is a power outage near my house"
        DelegationOutcome.failure).aiContacted = false := by
  refine ⟨by decide, ?_⟩
  exact (scenario_match_frame "There is a power outage near my house"
    DelegationOutcome.failure (DelegationOutcome.success none)
    ("power outage",
      ["Power outage reported in your area. Technician has been dispatched and will arrive within 24 hours. For immediate assistance, please contact the emergency helpline at 1912.",
       "We've registered your power outage report. Estimated restoration time is 6-8 hours."])
    (by decide) (by decide)).1

/-- Claim C3 counterexample: a 1 KiB payload of MIME type "audio/mp4" — a
type the claimed allow-list (webm, wav, mp3/mpeg, mp4/m4a, ogg) contains — is
rejected as UnsupportedFormat by the route, because its check is substring
containment of the subtypes webm, wav, mp3, m4a, mpeg, ogg, and "audio/mp4"
contains none of them. -/
theorem mp4_upload_rejected :
    gatewayPOST (some { name := "clip.mp4", mime := "audio/mp4", size := 1024 }) =
      { status := 400, errorKind := some .unsupportedFormat, extAttempted := false } := by
  decide

/-- Claim C3 (amended): validation accepts a present payload of size at most
25 MiB exactly when its MIME type string contains one of the subtype
substrings webm, wav, mp3, m4a, mpeg, ogg (so audio/webm, audio/wav,
audio/mp3, audio/mpeg, audio/m4a, audio/ogg all pass, but plain audio/mp4 is
rejected); a missing payload, a type containing none of the substrings, and
an oversized payload fail in that order with the distinct errors MissingAudio
/ UnsupportedFormat / PayloadTooLarge, each HTTP 400 and each before the
external transcription call is attempted; the boundary payload of
25 MiB + 1 bytes is rejected as PayloadTooLarge. -/
theorem upload_validation_amended :
    (gatewayPOST none =
      { status := 400, errorKind := some .missingAudio, extAttempted := false }) ∧
    (∀ f : AudioFile, typeAllowed f.mime = true → f.size ≤ maxSize →
      gatewayPOST (some f) =
        { status := 200, errorKind := none, extAttempted := true }) ∧
    (∀ f : AudioFile, typeAllowed f.mime = false →
      gatewayPOST (some f) =
        { status := 400, errorKind := some .unsupportedFormat, extAttempted := false }) ∧
    (∀ f : AudioFile, typeAllowed f.mime = true → f.size > maxSize →
      gatewayPOST (some f) =
        { status := 400, errorKind := some .payloadTooLarge, extAttempted := false }) ∧
    (typeAllowed "audio/webm" = true ∧ typeAllowed "audio/wav" = true ∧
     typeAllowed "audio/mp3" = true ∧ typeAllowed "audio/mpeg" = true ∧
     typeAllowed "audio/m4a" = true ∧ typeAllowed "audio/ogg" = true ∧
     typeAllowed "audio/mp4" = false) ∧
    (gatewayPOST (some { name := "big.webm", mime := "audio/webm", size := maxSize + 1 }) =
      { status := 400, errorKind := some .payloadTooLarge, extAttempted := false }) := by
  refine ⟨by decide, ?_, ?_, ?_, by decide, by decide⟩
  · intro f h1 h2
    simp [gatewayPOST, validateUpload, h1, Nat.not_lt.mpr h2]
  · intro f h1
    simp [gatewayPOST, validateUpload, h1]
  · intro f h1 h2
    simp [gatewayPOST, validateUpload, h1, h2]

/-- Witness for C3: a small webm upload passes and reaches the external
call; a small payload of type text/plain is rejected as UnsupportedFormat;
an oversized webm payload is rejected as PayloadTooLarge. -/
theorem upload_validation_amended_witness :
    gatewayPOST (some { name := "a.webm", mime := "audio/webm", size := 4096 }) =
      { status := 200, errorKind := none, extAttempted := true } ∧
    gatewayPOST (some { name := "a.txt", mime := "text/plain", size := 4096 }) =
      { status := 400, errorKind := some .unsupportedFormat, extAttempted := false } ∧
    gatewayPOST (some { name := "b.webm", mime := "audio/webm", size := maxSize + 9 }) =
      { status := 400, errorKind := some .payloadTooLarge, extAttempted := false } :=
  ⟨upload_validation_amended.2.1 _ (by decide) (by decide),
   upload_validation_amended.2.2.1 _ (by decide),
   upload_validation_amended.2.2.2.1 _ (by decide) (by decide)⟩

/-- Claim C4 (code bug, evaluated at the failing input): the onstop handler
of a completed session emits exactly one request, but its multipart body
carries the clip under the field named "file" (never "audio", whatever
language is selected), while the gateway reads the field "audio" — so the
gateway sees no audio payload and the upload fails as MissingAudio. -/
theorem upload_field_name_mismatch :
    onstopRequests "auto" = [sendToWhisperForm "auto"] ∧
    (sendToWhisperForm "auto").map FormField.fieldName = ["file"] ∧
    (sendToWhisperForm "hi").map FormField.fieldName = ["file", "language"] ∧
    formGet (sendToWhisperForm "auto") "audio" = none ∧
    formGet (sendToWhisperForm "hi") "audio" = none ∧
    gatewayPOST none =
      { status := 400, errorKind := some .missingAudio, extAttempted := false } := by
  decide

/-- Claim C6 (code bug, evaluated at the failing input): for a valid webm
upload the second-version route writes the temp file and deletes it when the
external call succeeds, but when the call throws (rate limit, bad key, or any
other failure) control reaches the catch block and the temp file is never
deleted. -/
theorem temp_artifact_leak_on_failure :
    gatewayPOSTv2 (some { name := "a.webm", mime := "audio/webm", size := 1024 }) .ok =
      { status := 200, tempWritten := true, tempDeleted := true, extAttempted := true } ∧
    gatewayPOSTv2 (some { name := "a.webm", mime := "audio/webm", size := 1024 })
        (.errStatus 429) =
      { status := 429, tempWritten := true, tempDeleted := false, extAttempted := true } ∧
    gatewayPOSTv2 (some { name := "a.webm", mime := "audio/webm", size := 1024 })
        (.errStatus 401) =
      { status := 500, tempWritten := true, tempDeleted := false, extAttempted := true } ∧
    gatewayPOSTv2 (some { name := "a.webm", mime := "audio/webm", size := 1024 }) .errOther =
      { status := 500, tempWritten := true, tempDeleted := false, extAttempted := true } := by
  decide

/-- Claim C7 (code bug, evaluated at the failing input): in a state where
isRecording already holds, invoking startRecording is not a no-op — it
acquires a fresh stream (handle 2) on top of the already-held one, replaces
the recorder ref, and clears the transcript, contradicting the claimed
idempotent no-op. -/
theorem startRecording_while_recording_not_noop :
    activeRecordingState.isRecording = true ∧
    startRecording activeRecordingState 2 ≠ activeRecordingState ∧
    (startRecording activeRecordingState 2).acquiredStreams =
      2 :: activeRecordingState.acquiredStreams ∧
    (startRecording activeRecordingState 2).recorderRef ≠
      activeRecordingState.recorderRef ∧
    (startRecording activeRecordingState 2).transcript ≠
      activeRecordingState.transcript := by
  decide

/-- Claim C8: the TTS effect is single-flight — for any synthesis-queue state
(including one still playing a previous turn's utterance), a non-empty reply
first cancels the queue and then speaks, leaving exactly the new utterance,
so at most one utterance is queued and every pending utterance other than the
new reply is gone before the new reply plays. -/
theorem tts_single_flight (r : String) (q : List String)
    (h : r.isEmpty = false) :
    ttsEffect r q = [r] ∧ (ttsEffect r q).length ≤ 1 ∧
    ∀ u ∈ q, u ≠ r → u ∉ ttsEffect r q := by
  have he : ttsEffect r q = [r] := by simp [ttsEffect, h, synthCancel, synthSpeak]
  refine ⟨he, by simp [he], ?_⟩
  intro u _ hu
  rw [he]
  simp [hu]

/-- Witness for C8: speaking the reply "hello" while an older utterance is
still queued leaves exactly the new utterance. -/
theorem tts_single_flight_witness :
    ("hello" : String).isEmpty = false ∧
    ttsEffect "hello" ["previous turn reply"] = ["hello"] :=
  ⟨by decide, (tts_single_flight "hello" ["previous turn reply"] (by decide)).1⟩

/-- Claim C9: a transcript whose characters all lie below the Devanagari
block (which covers every Latin character the pipeline produces along with
digits and punctuation) with at least one Latin letter detects exactly
English; a transcript with at least one Devanagari-range character and at
least one Latin letter detects both Hindi and English. -/
theorem detect_languages_latin_and_devanagari :
    (∀ s : String, (∀ c ∈ s.data, c.toNat < 0x900) → hasLatinLetter s = true →
      detectLanguagesInText s = ["English"]) ∧
    (∀ s : String, hasCharInRange s 0x900 0x97F = true → hasLatinLetter s = true →
      "Hindi" ∈ detectLanguagesInText s ∧ "English" ∈ detectLanguagesInText s) := by
  constructor
  · intro s h hl
    have hr : ∀ lo hi : Nat, 0x900 ≤ lo → hasCharInRange s lo hi = false := by
      intro lo hi hlo
      simp only [hasCharInRange, List.any_eq_false]
      intro c hc
      have hcn := h c hc
      simp only [inRange, decide_eq_true_eq, not_and]
      omega
    simp [detectLanguagesInText, hl,
      hr 0x900 0x97F (by norm_num), hr 0xB80 0xBFF (by norm_num),
      hr 0xC00 0xC7F (by norm_num), hr 0xD00 0xD7F (by norm_num),
      hr 0xC80 0xCFF (by norm_num), hr 0x980 0x9FF (by norm_num),
      hr 0xA80 0xAFF (by norm_num), hr 0xA00 0xA7F (by norm_num)]
  · intro s hh hl
    constructor
    · simp [detectLanguagesInText, hh]
    · simp [detectLanguagesInText, hl]

/-- Witness for C9: the Latin transcript "hello there 123" detects exactly
English, and a transcript mixing Devanagari with Latin detects both Hindi
and English. -/
theorem detect_languages_witness :
    detectLanguagesInText "hello there 123" = ["English"] ∧
    ("Hindi" ∈ detectLanguagesInText "नमस्ते ok" ∧
     "English" ∈ detectLanguagesInText "नमस्ते ok") :=
  ⟨detect_languages_latin_and_devanagari.1 "hello there 123" (by decide) (by decide),
   detect_languages_latin_and_devanagari.2 "नमस्ते ok" (by decide) (by decide)⟩

end Zapdos
